import Mathlib

/-!
Shallow embedding of the depth post-processing and evaluation pipeline of
`pred_season_depth.py`: the numpy clip/quantize persistence path of
`evaluate`, the scale calibration selected by the evaluation mode, the
`batch_post_process_disparity` blending, and `compute_errors`.

Depth values, disparities and weight masks are embedded as exact rationals
(numpy float64 arithmetic on the small decimal constants involved is exact
enough that the claims under study are about the real-number formulas, not
about rounding of the float format); `compute_errors` needs `log` and
`sqrt`, so it is embedded over the reals.
-/

namespace PredSeasonDepth

/-- `np.clip(x, lo, hi)`: `min (max x lo) hi`. -/
def clip (x lo hi : ℚ) : ℚ := min (max x lo) hi

/-- The evaluation mode chosen by `--eval_mono` / `--eval_stereo`. -/
inductive EvalMode
  | mono
  | stereo
  deriving DecidableEq

/-- The local `STEREO_SCALE_FACTOR` set in `evaluate` (lines 68-71):
`1.0` under `--eval_mono`, `5.4` under `--eval_stereo`. -/
def scaleFactor : EvalMode → ℚ
  | .mono => 1
  | .stereo => 5.4

/-- Line 147 of `evaluate`: `depth = STEREO_SCALE_FACTOR / disp_resized`,
per disparity value. -/
def calibrate (m : EvalMode) (d : ℚ) : ℚ := scaleFactor m / d

/-- `MIN_DEPTH = 1e-3` (line 63 of `evaluate`). -/
def MIN_DEPTH : ℚ := 1 / 1000

/-- `MAX_DEPTH = 80` (line 64 of `evaluate`). -/
def MAX_DEPTH : ℚ := 80

/-- Lines 148-149 of `evaluate`, per depth value:
`depth = np.clip(depth, 0, 80); depth = np.uint16(depth * 256)`.
The cast `np.uint16` of a float truncates toward zero and wraps modulo
`2^16`; the clipped value is nonnegative, so truncation toward zero is
`Int.floor`. -/
def quantizeDepth (d : ℚ) : ℕ := (⌊clip d 0 80 * 256⌋).toNat % 65536

/-- The quantizer as the SPEC words it (for comparison with
`quantizeDepth`): "pixel value = round(clip(depth_meters,0,80) × 256)",
round to nearest integer. -/
def quantizeSpecRound (d : ℚ) : ℤ := round (clip d 0 80 * 256)

theorem quantizeDepth_eq_floor (d : ℚ) :
    quantizeDepth d = (⌊clip d 0 80 * 256⌋).toNat := by
  have hle : clip d 0 80 ≤ 80 := min_le_right _ _
  have hmul : clip d 0 80 * 256 ≤ 20480 := by nlinarith
  have hfl : ⌊clip d 0 80 * 256⌋ ≤ 20480 := by
    have := Int.floor_le_floor hmul
    simpa using this
  have hlt : (⌊clip d 0 80 * 256⌋).toNat < 65536 := by
    have := Int.toNat_le_toNat hfl
    simpa using this.trans_lt (by norm_num)
  exact Nat.mod_eq_of_lt hlt

theorem clip_nonneg (d : ℚ) : 0 ≤ clip d 0 80 := by
  unfold clip
  exact le_min (le_max_right _ _) (by norm_num)

/-- C1: the claim says the stored 16-bit value equals
round(clip(depth,0,80) × 256).  The code casts with `np.uint16`, which
truncates: the stored value is the floor, not the nearest integer.
This theorem proves the amended claim: the stored value equals
⌊clip(depth,0,80) × 256⌋ (truncation toward zero of a nonnegative
value), with no 16-bit wraparound. -/
theorem quantizeDepth_is_floor_of_clip (d : ℚ) :
    (quantizeDepth d : ℤ) = ⌊clip d 0 80 * 256⌋ := by
  rw [quantizeDepth_eq_floor]
  have h0 : (0 : ℚ) ≤ clip d 0 80 * 256 :=
    mul_nonneg (clip_nonneg d) (by norm_num)
  exact Int.toNat_of_nonneg (Int.floor_nonneg.mpr h0)

/-- C1 counterexample: at depth 0.999 the code stores
⌊0.999 × 256⌋ = ⌊255.744⌋ = 255, while round-to-nearest as claimed would
store 256. -/
theorem quantizeDepth_not_round : quantizeDepth (999 / 1000) = 255 ∧
    quantizeSpecRound (999 / 1000) = 256 := by
  constructor
  · norm_num [quantizeDepth, clip, max_def, min_def]
    rfl
  · norm_num [quantizeSpecRound, clip, max_def, min_def, round_eq]

/-- C3 counterexample: the persistence path clips with `np.clip(depth, 0, 80)`
(line 148), lower bound 0, not `MIN_DEPTH = 1e-3`.  A positive disparity of
10000 in mono mode yields depth 1e-4; after clipping it is still 1e-4,
strictly below `MIN_DEPTH`, so not every clipped value lies in
[MIN_DEPTH, MAX_DEPTH]. -/
theorem clip_below_min_depth : (0 : ℚ) < 10000 ∧
    clip (calibrate EvalMode.mono 10000) 0 80 < MIN_DEPTH := by
  refine ⟨by norm_num, ?_⟩
  norm_num [clip, calibrate, scaleFactor, MIN_DEPTH, max_def, min_def]

/-- C3 (amended): after the clipping step of the persistence path every
depth value lies in [0, MAX_DEPTH] (0, not MIN_DEPTH, is the lower clip
bound used at line 148), and every quantized value lies in 0..20480, which
never overflows 16 bits. -/
theorem clip_quantize_range (d : ℚ) :
    (0 ≤ clip d 0 80 ∧ clip d 0 80 ≤ MAX_DEPTH) ∧
      quantizeDepth d ≤ 20480 ∧ quantizeDepth d < 65536 := by
  refine ⟨⟨clip_nonneg d, min_le_right _ _⟩, ?_, ?_⟩
  · rw [quantizeDepth_eq_floor]
    have hle : clip d 0 80 ≤ 80 := min_le_right _ _
    have hmul : clip d 0 80 * 256 ≤ 20480 := by nlinarith
    have hfl : ⌊clip d 0 80 * 256⌋ ≤ 20480 := by
      have := Int.floor_le_floor hmul
      simpa using this
    have := Int.toNat_le_toNat hfl
    simpa using this
  · unfold quantizeDepth
    exact Nat.mod_lt _ (by norm_num)

/-- C4: the calibrated metric depth of a positive disparity value `d` is
`1.0 / d` under `--eval_mono` and `5.4 / d` under `--eval_stereo`
(lines 68-71 set the local `STEREO_SCALE_FACTOR`, line 147 divides). -/
theorem calibrate_mono_stereo (d : ℚ) (hd : 0 < d) :
    calibrate EvalMode.mono d = 1 / d ∧
      calibrate EvalMode.stereo d = 5.4 / d := by
  exact ⟨rfl, rfl⟩

/-- C4 witness: disparity 2 gives depth 1/2 in mono mode and 2.7 in stereo
mode. -/
theorem calibrate_mono_stereo_witness :
    calibrate EvalMode.mono 2 = 1 / 2 ∧
      calibrate EvalMode.stereo 2 = 5.4 / 2 :=
  calibrate_mono_stereo 2 (by norm_num)

/-- C9: the quantizer is monotonic: for depths `d1 < d2` within [0, 80],
the quantized value of `d1` is at most that of `d2`. -/
theorem quantizeDepth_monotone (d1 d2 : ℚ) (h0 : 0 ≤ d1) (h80 : d2 ≤ 80)
    (h : d1 < d2) : quantizeDepth d1 ≤ quantizeDepth d2 := by
  rw [quantizeDepth_eq_floor, quantizeDepth_eq_floor]
  apply Int.toNat_le_toNat
  apply Int.floor_le_floor
  have hclip : clip d1 0 80 ≤ clip d2 0 80 :=
    min_le_min (max_le_max h.le le_rfl) le_rfl
  nlinarith

/-- C9 witness: depths 1 < 2 within [0, 80] quantize monotonically. -/
theorem quantizeDepth_monotone_witness :
    (0 : ℚ) ≤ 1 ∧ (2 : ℚ) ≤ 80 ∧ (1 : ℚ) < 2 ∧
      quantizeDepth 1 ≤ quantizeDepth 2 :=
  ⟨by norm_num, by norm_num, by norm_num,
    quantizeDepth_monotone 1 2 (by norm_num) (by norm_num) (by norm_num)⟩

/-- Python `int(bool)`: `True` is 1, `False` is 0, as summed by
`sum((opt.eval_mono, opt.eval_stereo))` at line 66. -/
def boolToNat (b : Bool) : ℕ := if b then 1 else 0

/-- Lines 66-71 of `evaluate`: `assert sum((opt.eval_mono, opt.eval_stereo)) == 1`
runs before any other computation; when it passes, the mode fixes the scale
factor.  `none` models the `AssertionError`. -/
def evaluateModeGate (eval_mono eval_stereo : Bool) : Option EvalMode :=
  if boolToNat eval_mono + boolToNat eval_stereo = 1 then
    some (if eval_mono then .mono else .stereo)
  else none

/-- C10: the mode gate of `evaluate` succeeds exactly when one of
`--eval_mono` and `--eval_stereo` is selected: both or neither are
rejected by the assertion before any computation is performed. -/
theorem evaluateModeGate_exactly_one (m s : Bool) :
    (evaluateModeGate m s).isSome = true ↔
      ((m = true ∧ s = false) ∨ (m = false ∧ s = true)) := by
  cases m <;> cases s <;> simp [evaluateModeGate, boolToNat]

/-- `np.linspace(0, 1, w)` at index `j`: `j / (w - 1)` with the endpoint
included; numpy returns `[0]` when `w = 1` (and the empty array when
`w = 0`, so the value at any index is irrelevant then). -/
def linspace01 (w j : ℕ) : ℚ := if w ≤ 1 then 0 else (j : ℚ) / ((w : ℚ) - 1)

/-- Line 55 of `batch_post_process_disparity`:
`l_mask = 1.0 - np.clip(20 * (l - 0.05), 0, 1)` at column `j`; via
`np.meshgrid` every row of `l` is `np.linspace(0, 1, w)`, so the mask
depends only on the column. -/
def l_mask (w j : ℕ) : ℚ := 1 - clip (20 * (linspace01 w j - 1 / 20)) 0 1

/-- Line 56, `r_mask = l_mask[:, :, ::-1]`, at the index level: reversing
the columns of a width-`w` row sends index `j` to `w - 1 - j`. -/
def r_mask (w j : ℕ) : ℚ := l_mask w (w - 1 - j)

/-- A row of the left mask as the list of its `w` column values. -/
def l_mask_row (w : ℕ) : List ℚ := (List.range w).map (l_mask w)

/-- A row of the right mask: the column-reversed left-mask row
(`l_mask[:, :, ::-1]`). -/
def r_mask_row (w : ℕ) : List ℚ := (l_mask_row w).reverse

/-- Lines 52-57, per element `(n, i, j)` of a batch of shape `(N, h, w)`:
`m_disp = 0.5 * (l_disp + r_disp)` and the blended output
`r_mask * l_disp + l_mask * r_disp + (1.0 - l_mask - r_mask) * m_disp`. -/
def batch_post_process_disparity (w : ℕ) (l_disp r_disp : ℕ → ℕ → ℕ → ℚ)
    (n i j : ℕ) : ℚ :=
  let m_disp := 1 / 2 * (l_disp n i j + r_disp n i j)
  r_mask w j * l_disp n i j + l_mask w j * r_disp n i j +
    (1 - l_mask w j - r_mask w j) * m_disp

/-- The left weight as the SPEC words it:
`wl(w) = clip(1 - 20*(x(w) - 0.05), 0, 1)` over the ramp `x = j/(W-1)`. -/
def wl_spec (w j : ℕ) : ℚ :=
  clip (1 - 20 * ((j : ℚ) / ((w : ℚ) - 1) - 1 / 20)) 0 1

/-- The right weight as the SPEC words it: the horizontal mirror of
`wl_spec`. -/
def wr_spec (w j : ℕ) : ℚ := wl_spec w (w - 1 - j)

theorem one_sub_clip01 (t : ℚ) : 1 - clip t 0 1 = clip (1 - t) 0 1 := by
  unfold clip
  rcases le_total t 0 with h | h <;> rcases le_total t 1 with h' | h' <;>
    simp [max_def, min_def] <;> split_ifs <;> linarith

theorem l_mask_eq_wl_spec (w j : ℕ) (hw : 1 < w) :
    l_mask w j = wl_spec w j := by
  unfold l_mask wl_spec linspace01
  rw [if_neg (by omega)]
  rw [one_sub_clip01]

theorem r_mask_row_getD (w j : ℕ) (hj : j < w) :
    (r_mask_row w).getD j 0 = (l_mask_row w).getD (w - 1 - j) 0 := by
  have hlen : (l_mask_row w).length = w := by simp [l_mask_row]
  unfold r_mask_row
  rw [List.getD_eq_getElem?_getD, List.getD_eq_getElem?_getD]
  rw [List.getElem?_reverse (by rw [hlen]; exact hj)]
  rw [hlen]

/-- C5 (amended): for width `w > 1` the left weight is 1 at column 0,
falls linearly (value `2 - 20*x`) on the band `1/20 ≤ x ≤ 1/10` of the
ramp `x = j/(w-1)`, and is 0 at every column with `x ≥ 1/10` — hence in
particular at every column with `x ≥ 0.55 = 11/20`, but the ramp reaches 0
already by column ≈ `w * 0.1`, not ≈ `w * 0.55` as claimed; the right
weight row is the exact column-reverse of the left weight row. -/
theorem l_mask_shape (w : ℕ) (hw : 1 < w) :
    l_mask w 0 = 1 ∧
      (∀ j : ℕ, (1 : ℚ) / 10 ≤ (j : ℚ) / ((w : ℚ) - 1) → l_mask w j = 0) ∧
      (∀ j : ℕ, (1 : ℚ) / 20 ≤ (j : ℚ) / ((w : ℚ) - 1) →
        (j : ℚ) / ((w : ℚ) - 1) ≤ 1 / 10 →
        l_mask w j = 2 - 20 * ((j : ℚ) / ((w : ℚ) - 1))) ∧
      (∀ j : ℕ, (11 : ℚ) / 20 ≤ (j : ℚ) / ((w : ℚ) - 1) → l_mask w j = 0) ∧
      (∀ j : ℕ, j < w →
        (r_mask_row w).getD j 0 = (l_mask_row w).getD (w - 1 - j) 0) := by
  have hw' : ¬w ≤ 1 := by omega
  have hzero : ∀ j : ℕ, (1 : ℚ) / 10 ≤ (j : ℚ) / ((w : ℚ) - 1) →
      l_mask w j = 0 := by
    intro j hx
    unfold l_mask linspace01
    rw [if_neg hw']
    unfold clip
    rw [max_eq_left (by linarith), min_eq_right (by linarith)]
    ring
  refine ⟨?_, hzero, ?_, ?_, fun j hj => r_mask_row_getD w j hj⟩
  · unfold l_mask linspace01 clip
    rw [if_neg hw']
    norm_num
  · intro j h1 h2
    unfold l_mask linspace01
    rw [if_neg hw']
    unfold clip
    rw [max_eq_left (by linarith), min_eq_left (by linarith)]
    ring
  · intro j hx
    exact hzero j (by linarith)

/-- C5 witness: at width 100 the left weight is 1 at column 0 and 0 at
column 54 (x = 54/99 ≥ 1/10), and the right weight row at column 3 is the
left weight row at column 96. -/
theorem l_mask_shape_witness :
    l_mask 100 0 = 1 ∧ l_mask 100 54 = 0 ∧
      (r_mask_row 100).getD 3 0 = (l_mask_row 100).getD 96 0 :=
  ⟨(l_mask_shape 100 (by norm_num)).1,
    (l_mask_shape 100 (by norm_num)).2.1 54 (by push_cast; norm_num),
    (l_mask_shape 100 (by norm_num)).2.2.2.2 3 (by norm_num)⟩

/-- C5 counterexample: the claim describes the left weight as "linearly
falling to 0 by column index ≈ W*0.55"; in fact at width 100 the weight is
already 0 from column 10 onward (x = 10/99 ≥ 1/10): it is still positive at
column 9 (x = 1/11), 0 at column 10, and 0 at column 30 — far before
column 55, where a ramp ending near W*0.55 would still be positive. -/
theorem l_mask_zero_before_55 :
    0 < l_mask 100 9 ∧ l_mask 100 10 = 0 ∧ l_mask 100 30 = 0 := by
  refine ⟨?_, ?_, ?_⟩ <;>
    norm_num [l_mask, linspace01, clip, max_def, min_def]

/-- C6: the post-processed output at every batch element `(n, i, j)` of
width-`w` maps equals `wr*L + wl*R + (1 - wl - wr)*M` with `M` the
pointwise mean `0.5*(L+R)`, `wl = clip(1 - 20*(x - 0.05), 0, 1)` over the
ramp `x = j/(w-1)`, and `wr` its horizontal mirror; the weights do not
depend on the batch index `n` or the row `i`, so the same weight maps act
on every item of the batch independently. -/
theorem batch_post_process_eq_spec (w : ℕ) (hw : 1 < w)
    (L R : ℕ → ℕ → ℕ → ℚ) (n i j : ℕ) :
    batch_post_process_disparity w L R n i j =
      wr_spec w j * L n i j + wl_spec w j * R n i j +
        (1 - wl_spec w j - wr_spec w j) * (1 / 2 * (L n i j + R n i j)) := by
  unfold batch_post_process_disparity wr_spec r_mask
  rw [l_mask_eq_wl_spec w j hw, l_mask_eq_wl_spec w (w - 1 - j) hw]

/-- C6 witness: at width 3, constant maps L = 2 and R = 4, batch element
(0, 0, 1), the output equals the spec formula. -/
theorem batch_post_process_eq_spec_witness :
    batch_post_process_disparity 3 (fun _ _ _ => (2 : ℚ))
        (fun _ _ _ => (4 : ℚ)) 0 0 1 =
      wr_spec 3 1 * 2 + wl_spec 3 1 * 4 +
        (1 - wl_spec 3 1 - wr_spec 3 1) * (1 / 2 * (2 + 4)) :=
  batch_post_process_eq_spec 3 (by norm_num) (fun _ _ _ => (2 : ℚ))
    (fun _ _ _ => (4 : ℚ)) 0 0 1

/-- C7: post-processing a batch against itself is the identity:
`M = L` and the three weights sum to 1, so the blend returns `L` at every
element, for every width. -/
theorem batch_post_process_self (w : ℕ) (L : ℕ → ℕ → ℕ → ℚ) (n i j : ℕ) :
    batch_post_process_disparity w L L n i j = L n i j := by
  unfold batch_post_process_disparity
  ring

/-- numpy `.mean()` of a 1-D array: sum divided by length. -/
noncomputable def listMean (l : List ℝ) : ℝ := l.sum / l.length

/-- `compute_errors` line 31:
`thresh = np.maximum((gt / pred), (pred / gt))`, elementwise over the two
equal-shaped arrays. -/
noncomputable def thresh (gt pred : List ℝ) : List ℝ :=
  (gt.zip pred).map fun p => max (p.1 / p.2) (p.2 / p.1)

/-- `a1 = (thresh < 1.25).mean()` (line 32): the boolean array is averaged
as 0/1 values. -/
noncomputable def a1 (gt pred : List ℝ) : ℝ :=
  listMean ((thresh gt pred).map fun t => if t < 1.25 then (1 : ℝ) else 0)

/-- `a2 = (thresh < 1.25 ** 2).mean()` (line 33). -/
noncomputable def a2 (gt pred : List ℝ) : ℝ :=
  listMean ((thresh gt pred).map fun t => if t < 1.25 ^ 2 then (1 : ℝ) else 0)

/-- `a3 = (thresh < 1.25 ** 3).mean()` (line 34). -/
noncomputable def a3 (gt pred : List ℝ) : ℝ :=
  listMean ((thresh gt pred).map fun t => if t < 1.25 ^ 3 then (1 : ℝ) else 0)

/-- `rmse = np.sqrt(((gt - pred) ** 2).mean())` (lines 36-37). -/
noncomputable def rmse (gt pred : List ℝ) : ℝ :=
  Real.sqrt (listMean ((gt.zip pred).map fun p => (p.1 - p.2) ^ 2))

/-- `rmse_log = np.sqrt(((np.log(gt) - np.log(pred)) ** 2).mean())`
(lines 39-40). -/
noncomputable def rmse_log (gt pred : List ℝ) : ℝ :=
  Real.sqrt (listMean ((gt.zip pred).map fun p =>
    (Real.log p.1 - Real.log p.2) ^ 2))

/-- `abs_rel = np.mean(np.abs(gt - pred) / gt)` (line 42). -/
noncomputable def abs_rel (gt pred : List ℝ) : ℝ :=
  listMean ((gt.zip pred).map fun p => |p.1 - p.2| / p.1)

/-- `sq_rel = np.mean(((gt - pred) ** 2) / gt)` (line 44). -/
noncomputable def sq_rel (gt pred : List ℝ) : ℝ :=
  listMean ((gt.zip pred).map fun p => (p.1 - p.2) ^ 2 / p.1)

/-- `compute_errors(gt, pred)` (lines 28-46): the fixed 7-tuple
`(abs_rel, sq_rel, rmse, rmse_log, a1, a2, a3)`.  The body performs no
validation of its inputs: numpy division and log of non-positive values
produce non-finite numbers (embedded here by Lean's junk-value
conventions), they do not raise. -/
noncomputable def compute_errors (gt pred : List ℝ) :
    ℝ × ℝ × ℝ × ℝ × ℝ × ℝ × ℝ :=
  (abs_rel gt pred, sq_rel gt pred, rmse gt pred, rmse_log gt pred,
    a1 gt pred, a2 gt pred, a3 gt pred)

/-- Calling `compute_errors` on 1-D arrays, with numpy's broadcasting:
equal-length arrays combine elementwise; a length-1 array is broadcast
(replicated) against the other's length; any other length mismatch raises
a broadcast `ValueError` (here `none`).  Values ≤ 0 in either array never
raise. -/
noncomputable def compute_errorsChecked (gt pred : List ℝ) :
    Option (ℝ × ℝ × ℝ × ℝ × ℝ × ℝ × ℝ) :=
  if gt.length = pred.length then some (compute_errors gt pred)
  else if gt.length = 1 then
    some (compute_errors (List.replicate pred.length (gt.headD 0)) pred)
  else if pred.length = 1 then
    some (compute_errors gt (List.replicate gt.length (pred.headD 0)))
  else none

theorem zip_self_map {α : Type} (l : List α) :
    l.zip l = l.map fun x => (x, x) := by
  induction l with
  | nil => rfl
  | cons a t ih => rw [List.zip_cons_cons, ih, List.map_cons]

theorem listMean_const_one (l : List ℝ) (h : l ≠ []) :
    listMean (l.map fun _ => (1 : ℝ)) = 1 := by
  unfold listMean
  rw [List.map_const', List.sum_replicate, List.length_replicate]
  have hn : (l.length : ℝ) ≠ 0 :=
    Nat.cast_ne_zero.mpr (List.length_pos.mpr h).ne'
  simp [nsmul_eq_mul]
  exact div_self hn

theorem listMean_const_zero (l : List ℝ) :
    listMean (l.map fun _ => (0 : ℝ)) = 0 := by
  unfold listMean
  rw [List.map_const', List.sum_replicate]
  simp

/-- C8: on a nonempty strictly positive array, a perfect prediction scores
`compute_errors gt gt = (0, 0, 0, 0, 1, 1, 1)` in the fixed output order
`(abs_rel, sq_rel, rmse, rmse_log, a1, a2, a3)`. -/
theorem compute_errors_self (gt : List ℝ) (hne : gt ≠ [])
    (hpos : ∀ x ∈ gt, 0 < x) :
    compute_errors gt gt = (0, 0, 0, 0, 1, 1, 1) := by
  have hthresh : thresh gt gt = gt.map fun _ => (1 : ℝ) := by
    unfold thresh
    rw [zip_self_map, List.map_map]
    refine List.map_congr_left fun x hx => ?_
    have hx0 : x ≠ 0 := (hpos x hx).ne'
    simp [Function.comp, div_self hx0]
  have hzip : ∀ f : ℝ × ℝ → ℝ, (∀ x : ℝ, x ∈ gt → f (x, x) = 0) →
      listMean ((gt.zip gt).map f) = 0 := by
    intro f hf
    rw [zip_self_map, List.map_map]
    have : (gt.map (f ∘ fun x => (x, x))) = gt.map fun _ => (0 : ℝ) :=
      List.map_congr_left fun x hx => hf x hx
    rw [this, listMean_const_zero]
  have ha1 : a1 gt gt = 1 := by
    unfold a1
    rw [hthresh, List.map_map]
    have : (gt.map ((fun t => if t < 1.25 then (1 : ℝ) else 0) ∘
        fun _ => (1 : ℝ))) = gt.map fun _ => (1 : ℝ) :=
      List.map_congr_left fun x _ => by norm_num [Function.comp]
    rw [this, listMean_const_one gt hne]
  have ha2 : a2 gt gt = 1 := by
    unfold a2
    rw [hthresh, List.map_map]
    have : (gt.map ((fun t => if t < 1.25 ^ 2 then (1 : ℝ) else 0) ∘
        fun _ => (1 : ℝ))) = gt.map fun _ => (1 : ℝ) :=
      List.map_congr_left fun x _ => by norm_num [Function.comp]
    rw [this, listMean_const_one gt hne]
  have ha3 : a3 gt gt = 1 := by
    unfold a3
    rw [hthresh, List.map_map]
    have : (gt.map ((fun t => if t < 1.25 ^ 3 then (1 : ℝ) else 0) ∘
        fun _ => (1 : ℝ))) = gt.map fun _ => (1 : ℝ) :=
      List.map_congr_left fun x _ => by norm_num [Function.comp]
    rw [this, listMean_const_one gt hne]
  have hrmse : rmse gt gt = 0 := by
    unfold rmse
    rw [hzip _ fun x _ => by simp, Real.sqrt_zero]
  have hrmse_log : rmse_log gt gt = 0 := by
    unfold rmse_log
    rw [hzip _ fun x _ => by simp, Real.sqrt_zero]
  have habs : abs_rel gt gt = 0 := by
    unfold abs_rel
    exact hzip _ fun x _ => by simp
  have hsq : sq_rel gt gt = 0 := by
    unfold sq_rel
    exact hzip _ fun x _ => by simp
  unfold compute_errors
  rw [ha1, ha2, ha3, hrmse, hrmse_log, habs, hsq]

/-- C8 witness: the singleton positive array `[1]` scores
`(0, 0, 0, 0, 1, 1, 1)` against itself. -/
theorem compute_errors_self_witness :
    compute_errors [(1 : ℝ)] [(1 : ℝ)] = (0, 0, 0, 0, 1, 1, 1) :=
  compute_errors_self [(1 : ℝ)] (by simp)
    (fun x hx => by rw [List.mem_singleton] at hx; rw [hx]; norm_num)

/-- C2 counterexample: `compute_errors` does not fail fast on non-positive
values: on `gt = [1]`, `pred = [-1]` (equal shapes, `pred` containing a
value ≤ 0) it returns a result rather than raising. -/
theorem compute_errors_no_fail_on_nonpositive :
    (compute_errorsChecked [(1 : ℝ)] [(-1 : ℝ)]).isSome = true := by
  simp [compute_errorsChecked]

/-- C2 (amended): `compute_errors` performs no input validation of its own:
over 1-D arrays the call fails exactly when numpy cannot broadcast the two
shapes (the lengths differ and neither is 1); whenever the shapes
broadcast it returns a result, whatever the signs of the values, so
non-positive inputs are neither rejected nor clamped. -/
theorem compute_errorsChecked_isSome_iff (gt pred : List ℝ) :
    (compute_errorsChecked gt pred).isSome = true ↔
      (gt.length = pred.length ∨ gt.length = 1 ∨ pred.length = 1) := by
  unfold compute_errorsChecked
  split_ifs <;> simp_all

end PredSeasonDepth
